import Mathlib

set_option maxRecDepth 10000

/-!
Verification development for the kostal modbusquery script, a register table
driven modbus decode engine.  The pure decode routines, the register catalog,
the acquisition pass of the run method, the register 575 clamp, the derived
metric calculations of the main block and the write path are embedded as
executable Lean definitions; real values are modelled as rationals and the
16 bit register words as natural numbers below 65536.
-/

namespace Kostal

/-- Big endian byte pair of one 16 bit register word, as produced when
BinaryPayloadDecoder.fromRegisters packs each register with byteorder Big. -/
def wordBytes (w : Nat) : List Nat := [w % 65536 / 256, w % 256]

/-- Payload byte sequence of a register list under byteorder Big: the two
big endian bytes of every word, words kept in register order. -/
def fromRegistersBE (ws : List Nat) : List Nat := (ws.map wordBytes).flatten

/-- Big endian value of a byte list. -/
def bytesToNatBE (bs : List Nat) : Nat := bs.foldl (fun a b => a * 256 + b) 0

/-- Reordering applied to the 4 byte handle of a 32 bit decode when wordorder
is Little: the two 16 bit words swap places, each keeping its internal
big endian byte order. -/
def wordswap32 (bs : List Nat) : List Nat := bs.drop 2 ++ bs.take 2

/-- Decode of decode_16bit_uint: the first two payload bytes, big endian. -/
def decode_16bit_uint (payload : List Nat) : Nat := bytesToNatBE (payload.take 2)

/-- Two complement reading of a 16 bit pattern as a signed integer. -/
def toSigned16 (n : Nat) : Int := if n < 32768 then (n : Int) else (n : Int) - 65536

/-- Decode of decode_16bit_int: the first two payload bytes as a signed value. -/
def decode_16bit_int (payload : List Nat) : Int := toSigned16 (decode_16bit_uint payload)

/-- Decode of decode_32bit_uint under byteorder Big and wordorder Little: the
first four payload bytes with the two words swapped, read big endian. -/
def decode_32bit_uint (payload : List Nat) : Nat :=
  bytesToNatBE (wordswap32 (payload.take 4))

/-- Value of an IEEE 754 single precision bit pattern as a rational; none for
the infinities and NaNs (exponent field 255).  Used to model
decode_32bit_float exactly on finite values. -/
def ieee754single (b : Nat) : Option ℚ :=
  let s : Nat := b / 2 ^ 31 % 2
  let e : Nat := b / 2 ^ 23 % 2 ^ 8
  let m : Nat := b % 2 ^ 23
  if e = 255 then none
  else
    let mag : ℚ :=
      if e = 0 then (m : ℚ) * (2 : ℚ) ^ (-(149 : ℤ))
      else ((2 ^ 23 + m : ℕ) : ℚ) * (2 : ℚ) ^ ((e : ℤ) - 150)
    some (if s = 1 then -mag else mag)

/-- Decode of decode_32bit_float under byteorder Big and wordorder Little. -/
def decode_32bit_float (payload : List Nat) : Option ℚ :=
  ieee754single (bytesToNatBE (wordswap32 (payload.take 4)))

/-- Rounding of a rational to the nearest integer, ties to even, the rule of
the python builtin round. -/
def roundHalfEven (q : ℚ) : ℤ :=
  let f := ⌊q⌋
  let r := q - f
  if r < 1 / 2 then f
  else if 1 / 2 < r then f + 1
  else if f % 2 = 0 then f else f + 1

/-- Rounding to 2 decimal places, as round(x, 2) in the source. -/
def round2 (q : ℚ) : ℚ := ((roundHalfEven (q * 100) : ℤ) : ℚ) / 100

/-- Rounding to 1 decimal place, as round(x, 1) in the source. -/
def round1 (q : ℚ) : ℚ := ((roundHalfEven (q * 10) : ℤ) : ℚ) / 10

/-- Pure decode part of ReadStr8 (source lines 861 to 866): the transport
returns 8 register words; decode_string(8) consumes the first 8 payload
bytes, and bytes(filter(None, s)) then drops every NUL byte, wherever it
occurs. -/
def ReadStr8 (ws : List Nat) : List Nat :=
  ((fromRegistersBE ws).take 8).filter (fun b => b != 0)

/-- Pure decode part of ReadStr32 (source lines 869 to 874): 32 register
words; decode_string(32) consumes the first 32 payload bytes, then every NUL
byte is dropped. -/
def ReadStr32 (ws : List Nat) : List Nat :=
  ((fromRegistersBE ws).take 32).filter (fun b => b != 0)

/-- Pure decode part of ReadFloat (source lines 877 to 881): 2 register
words decoded as an IEEE single with byteorder Big and wordorder Little, then
rounded to 2 decimal places. -/
def ReadFloat (ws : List Nat) : Option ℚ :=
  (decode_32bit_float (fromRegistersBE ws)).map round2

/-- Pure decode part of ReadU16_1 (source lines 884 to 888): 1 register word
decoded with decode_16bit_uint. -/
def ReadU16_1 (ws : List Nat) : Nat := decode_16bit_uint (fromRegistersBE ws)

/-- Pure decode part of ReadU32 (source lines 898 to 905): 2 register words
decoded with decode_32bit_uint under byteorder Big and wordorder Little. -/
def ReadU32 (ws : List Nat) : Nat := decode_32bit_uint (fromRegistersBE ws)

/-- Pure decode part of ReadU32new (source lines 907 to 914): identical
pipeline to ReadU32, kept as a separate definition because the source keeps
two routines. -/
def ReadU32new (ws : List Nat) : Nat := decode_32bit_uint (fromRegistersBE ws)

/-- Pure decode part of ReadS16 (source lines 917 to 921): 1 register word
decoded with decode_16bit_int. -/
def ReadS16 (ws : List Nat) : Int := decode_16bit_int (fromRegistersBE ws)

/-- Pure decode part of ReadU8 (source lines 924 to 929): despite the name the
source decodes with decode_16bit_uint (the 8 bit decode is commented out). -/
def ReadU8 (ws : List Nat) : Nat := decode_16bit_uint (fromRegistersBE ws)

/-- Clamp applied to the register 575 cell after a successful pass (source
lines 1218 to 1219): values above 32766 are replaced by 0. -/
def clamp575 (v : Int) : Int := if v > 32766 then 0 else v

/-- Register descriptor as built in the constructor: one self.AdrN list holding
the address, the display name and the catalog type tag (the fourth slot, the
mutable value cell, is modelled separately as acquisition state). -/
structure Descriptor where
  address : Nat
  name : String
  typ : String
  deriving DecidableEq

/-- Read routine tags, one per Read method the run method dispatches to. -/
inductive ReadKind
  | kStr8
  | kStr32
  | kFloat
  | kU16_1
  | kU32
  | kU32new
  | kS16
  | kU8
  deriving DecidableEq

/-- Register count each read routine requests from the transport. -/
def spanOf : ReadKind → Nat
  | .kStr8 => 8
  | .kStr32 => 32
  | .kFloat => 2
  | .kU16_1 => 1
  | .kU32 => 2
  | .kU32new => 2
  | .kS16 => 1
  | .kU8 => 1


/-- Register descriptors, one per self.AdrN block of the constructor (the Adr212
block is inside a triple quoted string in the source and therefore not part of the
catalog). Each carries the address, the display name and the catalog type tag. -/
def Adr6 : Descriptor := ⟨6, "Inverter article number", "Strg8"⟩
def Adr46 : Descriptor := ⟨46, "Software-Version IO-Controller (IOC)", "Strg8"⟩
def Adr56 : Descriptor := ⟨56, "Inverter State", "U16"⟩
def Adr100 : Descriptor := ⟨100, "Total DC power", "Float"⟩
def Adr104 : Descriptor := ⟨104, "State of energy manager", "Float"⟩
def Adr106 : Descriptor := ⟨106, "Home own consumption from battery", "Float"⟩
def Adr108 : Descriptor := ⟨108, "Home own consumption from grid", "Float"⟩
def Adr110 : Descriptor := ⟨110, "Total home consumption Battery", "Float"⟩
def Adr112 : Descriptor := ⟨112, "Total home consumption Grid", "Float"⟩
def Adr114 : Descriptor := ⟨114, "Total home consumption PV", "Float"⟩
def Adr116 : Descriptor := ⟨116, "Home own consumption from PV", "Float"⟩
def Adr118 : Descriptor := ⟨118, "Total home consumption", "Float"⟩
def Adr120 : Descriptor := ⟨120, "Isolation resistance", "Float"⟩
def Adr122 : Descriptor := ⟨122, "Power limit from EVU", "Float"⟩
def Adr124 : Descriptor := ⟨124, "Total home consumption rate", "Float"⟩
def Adr144 : Descriptor := ⟨144, "Worktime", "Float"⟩
def Adr150 : Descriptor := ⟨150, "Actual cos phi", "Float"⟩
def Adr152 : Descriptor := ⟨152, "Grid frequency", "Float"⟩
def Adr154 : Descriptor := ⟨154, "Current Phase 1", "Float"⟩
def Adr156 : Descriptor := ⟨156, "Active power Phase 1", "Float"⟩
def Adr158 : Descriptor := ⟨158, "Voltage Phase 1", "Float"⟩
def Adr160 : Descriptor := ⟨160, "Current Phase 2", "Float"⟩
def Adr162 : Descriptor := ⟨162, "Active power Phase 2", "Float"⟩
def Adr164 : Descriptor := ⟨164, "Voltage Phase 2", "Float"⟩
def Adr166 : Descriptor := ⟨166, "Current Phase 3", "Float"⟩
def Adr168 : Descriptor := ⟨168, "Active power Phase 3", "Float"⟩
def Adr170 : Descriptor := ⟨170, "Voltage Phase 3", "Float"⟩
def Adr172 : Descriptor := ⟨172, "Total AC active power", "Float"⟩
def Adr174 : Descriptor := ⟨174, "Total AC reactive power", "Float"⟩
def Adr178 : Descriptor := ⟨178, "Total AC apparent power", "Float"⟩
def Adr190 : Descriptor := ⟨190, "Battery charge current", "Float"⟩
def Adr194 : Descriptor := ⟨194, "Number of battery cycles", "Float"⟩
def Adr200 : Descriptor := ⟨200, "Actual battery charge -minus or discharge -plus current", "Float"⟩
def Adr202 : Descriptor := ⟨202, "PSSB fuse state", "Float"⟩
def Adr208 : Descriptor := ⟨208, "Battery ready flag", "Float"⟩
def Adr210 : Descriptor := ⟨210, "Act. state of charge", "Float"⟩
def Adr214 : Descriptor := ⟨214, "Battery temperature", "Float"⟩
def Adr216 : Descriptor := ⟨216, "Battery voltage", "Float"⟩
def Adr218 : Descriptor := ⟨218, "Cos phi (powermeter)", "Float"⟩
def Adr220 : Descriptor := ⟨220, "Frequency (powermeter)", "Float"⟩
def Adr222 : Descriptor := ⟨222, "Current phase 1 (powermeter)", "Float"⟩
def Adr224 : Descriptor := ⟨224, "Active power phase 1 (powermeter)", "Float"⟩
def Adr226 : Descriptor := ⟨226, "Reactive power phase 1 (powermeter)", "Float"⟩
def Adr228 : Descriptor := ⟨228, "Apparent power phase 1 (powermeter)", "Float"⟩
def Adr230 : Descriptor := ⟨230, "Voltage phase 1 (powermeter)", "Float"⟩
def Adr232 : Descriptor := ⟨232, "Current phase 2 (powermeter)", "Float"⟩
def Adr234 : Descriptor := ⟨234, "Active power phase 2 (powermeter)", "Float"⟩
def Adr236 : Descriptor := ⟨236, "Reactive power phase 2 (powermeter)", "Float"⟩
def Adr238 : Descriptor := ⟨238, "Apparent power phase 2 (powermeter)", "Float"⟩
def Adr240 : Descriptor := ⟨240, "Voltage phase 2 (powermeter)", "Float"⟩
def Adr242 : Descriptor := ⟨242, "Current phase 3 (powermeter)", "Float"⟩
def Adr244 : Descriptor := ⟨244, "Active power phase 3 (powermeter)", "Float"⟩
def Adr246 : Descriptor := ⟨246, "Reactive power phase 3 (powermeter)", "Float"⟩
def Adr248 : Descriptor := ⟨248, "Apparent power phase 3 (powermeter)", "Float"⟩
def Adr250 : Descriptor := ⟨250, "Voltage phase 3 (powermeter)", "Float"⟩
def Adr252 : Descriptor := ⟨252, "Total active power (powermeter)", "Float"⟩
def Adr254 : Descriptor := ⟨254, "Total reactive power (powermeter)", "Float"⟩
def Adr256 : Descriptor := ⟨256, "Total apparent power (powermeter)", "Float"⟩
def Adr258 : Descriptor := ⟨258, "Current DC1", "Float"⟩
def Adr260 : Descriptor := ⟨260, "Power DC1", "Float"⟩
def Adr266 : Descriptor := ⟨266, "Voltage DC1", "Float"⟩
def Adr268 : Descriptor := ⟨268, "Current DC2", "Float"⟩
def Adr270 : Descriptor := ⟨270, "Power DC2", "Float"⟩
def Adr276 : Descriptor := ⟨276, "Voltage DC2", "Float"⟩
def Adr278 : Descriptor := ⟨278, "Current DC3", "Float"⟩
def Adr280 : Descriptor := ⟨280, "Power DC3", "Float"⟩
def Adr286 : Descriptor := ⟨286, "Voltage DC3", "Float"⟩
def Adr320 : Descriptor := ⟨320, "Total yield", "Float"⟩
def Adr322 : Descriptor := ⟨322, "Daily yield", "Float"⟩
def Adr324 : Descriptor := ⟨324, "Yearly yield", "Float"⟩
def Adr326 : Descriptor := ⟨326, "Monthly yield", "Float"⟩
def Adr512 : Descriptor := ⟨512, "Battery Gross Capacity", "U32"⟩
def Adr514 : Descriptor := ⟨514, "Battery actual SOC", "U16"⟩
def Adr515 : Descriptor := ⟨515, "Firmware Maincontroller (MC)", "U32"⟩
def Adr517 : Descriptor := ⟨517, "Battery Manufacturer", "Strg8"⟩
def Adr525 : Descriptor := ⟨525, "Battery Model ID", "U32"⟩
def Adr527 : Descriptor := ⟨527, "Battery Serial Number", "U32"⟩
def Adr529 : Descriptor := ⟨529, "Battery Operation mode", "U32"⟩
def Adr531 : Descriptor := ⟨531, "Inverter Max Power", "Float"⟩
def Adr575 : Descriptor := ⟨575, "Inverter Generation Power (actual)", "S16"⟩
def Adr577 : Descriptor := ⟨577, "Generation Energy", "U32"⟩
def Adr578 : Descriptor := ⟨578, "Total energy", "U32"⟩
def Adr580 : Descriptor := ⟨580, "Battery Net Capacity", "U32"⟩
def Adr582 : Descriptor := ⟨582, "Actual battery charge-discharge power", "S16"⟩
def Adr586 : Descriptor := ⟨586, "Battery Firmware", "U32"⟩
def Adr588 : Descriptor := ⟨588, "Battery Type", "U16"⟩
def Adr768 : Descriptor := ⟨768, "Productname", "Strg32"⟩
def Adr800 : Descriptor := ⟨800, "Power Class", "Strg32"⟩
def Adr1024 : Descriptor := ⟨1024, "Battery charge power (AC) setpoint", "S16"⟩
def Adr1025 : Descriptor := ⟨1025, "Power Scale Factor", "S16"⟩
def Adr1026 : Descriptor := ⟨1026, "Battery charge power (AC) setpoint, absolute", "R32"⟩
def Adr1028 : Descriptor := ⟨1028, "Battery charge current (DC) setpoint, relative", "R32"⟩
def Adr1030 : Descriptor := ⟨1030, "Battery charge power (AC) setpoint, relative", "R32"⟩
def Adr1032 : Descriptor := ⟨1032, "Battery charge current (DC) setpoint, absolute", "R32"⟩
def Adr1034 : Descriptor := ⟨1034, "Battery charge power (DC) setpoint, absolute", "R32"⟩
def Adr1036 : Descriptor := ⟨1036, "Battery charge power (DC) setpoint, relative", "R32"⟩
def Adr1038 : Descriptor := ⟨1038, "Battery max charge power limit, absolute", "U32"⟩
def Adr1040 : Descriptor := ⟨1040, "Battery max discharge power limit, absolute", "U32"⟩
def Adr1042 : Descriptor := ⟨1042, "Minimum SOC", "U32"⟩
def Adr1044 : Descriptor := ⟨1044, "Maximum SOC", "U32"⟩
def Adr1046 : Descriptor := ⟨1046, "Total DC charge energy (DC-side to battery)", "R32"⟩
def Adr1048 : Descriptor := ⟨1048, "Total DC discharge energy (DC-side from battery)", "R32"⟩
def Adr1050 : Descriptor := ⟨1050, "Total AC charge energy (AC-side to battery)", "R32"⟩
def Adr1052 : Descriptor := ⟨1052, "Total AC discharge energy (Battery to grid)", "R32"⟩
def Adr1054 : Descriptor := ⟨1054, "Total AC charge energy (grid to battery)", "R32"⟩
def Adr1056 : Descriptor := ⟨1056, "Total DC PV energy (sum of all PV inputs)", "R32"⟩
def Adr1058 : Descriptor := ⟨1058, "Total DC energy from PV1", "R32"⟩
def Adr1060 : Descriptor := ⟨1060, "Total DC energy from PV2", "R32"⟩
def Adr1062 : Descriptor := ⟨1062, "Total DC energy from PV3", "R32"⟩
def Adr1064 : Descriptor := ⟨1064, "Total energy AC-side to grid", "R32"⟩
def Adr1066 : Descriptor := ⟨1066, "Total DC power (sum of all PV inputs)", "R32"⟩
def Adr1068 : Descriptor := ⟨1068, "Battery work capacity", "R32"⟩
def Adr1070 : Descriptor := ⟨1070, "Battery serial number", "U32"⟩
def Adr1076 : Descriptor := ⟨1076, "Maximum charge power limit (readout from battery)", "R32"⟩
def Adr1078 : Descriptor := ⟨1078, "Maximum discharge power limit (readout from battery)", "R32"⟩
def Adr1080 : Descriptor := ⟨1080, "Battery management mode", "U8"⟩
def Adr1082 : Descriptor := ⟨1082, "Installed sensor type", "U8"⟩

/-- Catalog of all register descriptors, in constructor order. -/
def catalog : List Descriptor :=
  [Adr6, Adr46, Adr56, Adr100, Adr104, Adr106, Adr108, Adr110, Adr112, Adr114, Adr116, Adr118, Adr120, Adr122, Adr124, Adr144, Adr150, Adr152, Adr154, Adr156, Adr158, Adr160, Adr162, Adr164, Adr166, Adr168, Adr170, Adr172, Adr174, Adr178, Adr190, Adr194, Adr200, Adr202, Adr208, Adr210, Adr214, Adr216, Adr218, Adr220, Adr222, Adr224, Adr226, Adr228, Adr230, Adr232, Adr234, Adr236, Adr238, Adr240, Adr242, Adr244, Adr246, Adr248, Adr250, Adr252, Adr254, Adr256, Adr258, Adr260, Adr266, Adr268, Adr270, Adr276, Adr278, Adr280, Adr286, Adr320, Adr322, Adr324, Adr326, Adr512, Adr514, Adr515, Adr517, Adr525, Adr527, Adr529, Adr531, Adr575, Adr577, Adr578, Adr580, Adr582, Adr586, Adr588, Adr768, Adr800, Adr1024, Adr1025, Adr1026, Adr1028, Adr1030, Adr1032, Adr1034, Adr1036, Adr1038, Adr1040, Adr1042, Adr1044, Adr1046, Adr1048, Adr1050, Adr1052, Adr1054, Adr1056, Adr1058, Adr1060, Adr1062, Adr1064, Adr1066, Adr1068, Adr1070, Adr1076, Adr1078, Adr1080, Adr1082]

/-- Read sequence of the run method, lines 945 to 1081 of the source, in program
order: the address read and the read routine used. Adr162 and Adr1038 each occur
twice; Adr578 does not occur (its read is commented out). -/
def readSeq : List (Nat × ReadKind) :=
  [(6, ReadKind.kStr8), (46, ReadKind.kStr8), (56, ReadKind.kU16_1), (100, ReadKind.kFloat), (104, ReadKind.kFloat), (106, ReadKind.kFloat), (108, ReadKind.kFloat), (110, ReadKind.kFloat), (112, ReadKind.kFloat), (114, ReadKind.kFloat), (116, ReadKind.kFloat), (118, ReadKind.kFloat), (120, ReadKind.kFloat), (122, ReadKind.kFloat), (124, ReadKind.kFloat), (144, ReadKind.kFloat), (150, ReadKind.kFloat), (152, ReadKind.kFloat), (154, ReadKind.kFloat), (156, ReadKind.kFloat), (158, ReadKind.kFloat), (160, ReadKind.kFloat), (162, ReadKind.kFloat), (162, ReadKind.kFloat), (164, ReadKind.kFloat), (166, ReadKind.kFloat), (168, ReadKind.kFloat), (170, ReadKind.kFloat), (172, ReadKind.kFloat), (174, ReadKind.kFloat), (178, ReadKind.kFloat), (190, ReadKind.kFloat), (194, ReadKind.kFloat), (200, ReadKind.kFloat), (202, ReadKind.kFloat), (208, ReadKind.kFloat), (210, ReadKind.kFloat), (214, ReadKind.kFloat), (216, ReadKind.kFloat), (218, ReadKind.kFloat), (220, ReadKind.kFloat), (222, ReadKind.kFloat), (224, ReadKind.kFloat), (226, ReadKind.kFloat), (228, ReadKind.kFloat), (230, ReadKind.kFloat), (232, ReadKind.kFloat), (234, ReadKind.kFloat), (236, ReadKind.kFloat), (238, ReadKind.kFloat), (240, ReadKind.kFloat), (242, ReadKind.kFloat), (244, ReadKind.kFloat), (246, ReadKind.kFloat), (248, ReadKind.kFloat), (250, ReadKind.kFloat), (252, ReadKind.kFloat), (254, ReadKind.kFloat), (256, ReadKind.kFloat), (258, ReadKind.kFloat), (260, ReadKind.kFloat), (266, ReadKind.kFloat), (268, ReadKind.kFloat), (270, ReadKind.kFloat), (276, ReadKind.kFloat), (278, ReadKind.kFloat), (280, ReadKind.kFloat), (286, ReadKind.kFloat), (320, ReadKind.kFloat), (322, ReadKind.kFloat), (324, ReadKind.kFloat), (326, ReadKind.kFloat), (512, ReadKind.kU32new), (514, ReadKind.kU16_1), (515, ReadKind.kU32new), (517, ReadKind.kStr8), (525, ReadKind.kU32), (527, ReadKind.kU32), (529, ReadKind.kU32new), (531, ReadKind.kU16_1), (575, ReadKind.kS16), (577, ReadKind.kU32), (580, ReadKind.kU32new), (582, ReadKind.kS16), (586, ReadKind.kU32), (588, ReadKind.kU16_1), (768, ReadKind.kStr32), (800, ReadKind.kStr32), (1024, ReadKind.kS16), (1025, ReadKind.kS16), (1026, ReadKind.kFloat), (1028, ReadKind.kFloat), (1030, ReadKind.kFloat), (1032, ReadKind.kFloat), (1034, ReadKind.kFloat), (1036, ReadKind.kFloat), (1038, ReadKind.kFloat), (1040, ReadKind.kFloat), (1042, ReadKind.kFloat), (1044, ReadKind.kFloat), (1068, ReadKind.kFloat), (1070, ReadKind.kU32), (1076, ReadKind.kFloat), (1078, ReadKind.kFloat), (1080, ReadKind.kU8), (1082, ReadKind.kU8), (1046, ReadKind.kFloat), (1048, ReadKind.kFloat), (1050, ReadKind.kFloat), (1052, ReadKind.kFloat), (1054, ReadKind.kFloat), (1056, ReadKind.kFloat), (1058, ReadKind.kFloat), (1060, ReadKind.kFloat), (1062, ReadKind.kFloat), (1064, ReadKind.kFloat), (1066, ReadKind.kFloat), (1038, ReadKind.kFloat)]

/-- Append sequence building self.KostalRegister, lines 1085 to 1214 of the source,
in program order. Adr1038 is appended twice; Adr578 is never appended. -/
def appendDescs : List Descriptor :=
  [Adr6, Adr46, Adr56, Adr100, Adr104, Adr106, Adr108, Adr110, Adr112, Adr114, Adr116, Adr118, Adr120, Adr122, Adr124, Adr144, Adr150, Adr152, Adr154, Adr156, Adr158, Adr160, Adr162, Adr164, Adr166, Adr168, Adr170, Adr172, Adr174, Adr178, Adr190, Adr194, Adr200, Adr202, Adr208, Adr210, Adr214, Adr216, Adr218, Adr220, Adr222, Adr224, Adr226, Adr228, Adr230, Adr232, Adr234, Adr236, Adr238, Adr240, Adr242, Adr244, Adr246, Adr248, Adr250, Adr252, Adr254, Adr256, Adr258, Adr260, Adr266, Adr268, Adr270, Adr276, Adr278, Adr280, Adr286, Adr320, Adr322, Adr324, Adr326, Adr512, Adr514, Adr515, Adr517, Adr525, Adr527, Adr529, Adr531, Adr575, Adr577, Adr580, Adr582, Adr586, Adr588, Adr768, Adr800, Adr1024, Adr1025, Adr1026, Adr1028, Adr1030, Adr1032, Adr1034, Adr1036, Adr1038, Adr1040, Adr1042, Adr1044, Adr1068, Adr1070, Adr1076, Adr1078, Adr1080, Adr1082, Adr1046, Adr1048, Adr1050, Adr1052, Adr1054, Adr1056, Adr1058, Adr1060, Adr1062, Adr1064, Adr1066, Adr1038]

/-- Addresses of the read sequence, in order. -/
def readSeqAddrs : List Nat := readSeq.map Prod.fst

/-- Addresses of the append sequence, in order. -/
def appendAddrs : List Nat := appendDescs.map Descriptor.address

/-- Decoded value of a register cell: byte strings, unsigned naturals, signed
integers, or the rounded rational of a float decode (none for non finite
patterns). -/
inductive Value
  | bytes (bs : List Nat)
  | nat (n : Nat)
  | int (i : Int)
  | float (q : Option ℚ)
  deriving DecidableEq

/-- Dispatch from a read routine tag to its pure decoder. -/
def decodeKind : ReadKind → List Nat → Value
  | .kStr8, ws => .bytes (ReadStr8 ws)
  | .kStr32, ws => .bytes (ReadStr32 ws)
  | .kFloat, ws => .float (ReadFloat ws)
  | .kU16_1, ws => .nat (ReadU16_1 ws)
  | .kU32, ws => .nat (ReadU32 ws)
  | .kU32new, ws => .nat (ReadU32new ws)
  | .kS16, ws => .int (ReadS16 ws)
  | .kU8, ws => .nat (ReadU8 ws)

/-- Transport collaborator: read_holding_registers takes an address and a
register count and either returns that many words or fails. -/
def Transport : Type := Nat → Nat → Option (List Nat)

/-- Typed failure of a single register read, carrying the failing address. -/
structure TransportError where
  addr : Nat
  deriving DecidableEq

/-- Pointwise update of the register value cells. -/
def updateCell (cells : Nat → Value) (a : Nat) (v : Value) : Nat → Value :=
  fun x => if x = a then v else cells x

/-- Sequential execution of a read list: each read asks the transport for the
register span of its routine, decodes, and stores into the cell of its
address.  The first failing read stops the block, as the raised python
exception would, but the cells already written by the earlier reads keep
their new values: the AdrN lists are mutated in place. -/
def passReadsAux (t : Transport) (cells : Nat → Value) :
    List (Nat × ReadKind) → (Nat → Value) × Option TransportError
  | [] => (cells, none)
  | (a, k) :: rest =>
      match t a (spanOf k) with
      | none => (cells, some ⟨a⟩)
      | some ws => passReadsAux t (updateCell cells a (decodeKind k ws)) rest

/-- Initial cell values: the constructor appends 0 as every value slot. -/
def initCells : Nat → Value := fun _ => Value.int 0

/-- All reads of one run invocation (source lines 945 to 1081), in source
order, starting from the current cell contents. -/
def passReads (t : Transport) (cells : Nat → Value) :
    (Nat → Value) × Option TransportError :=
  passReadsAux t cells readSeq

/-- Clamp step of the run method on the register 575 cell (source lines 1218
to 1219).  The source assigns self.KostalRegister first and clamps the shared
Adr575 list afterwards; since the snapshot entry aliases that list, clamping
the cell before the return is observably the same and is how the model
phrases it. -/
def clampCells (cells : Nat → Value) : Nat → Value :=
  fun a =>
    if a = 575 then
      match cells 575 with
      | .int v => .int (clamp575 v)
      | v => v
    else cells a

/-- Snapshot list self.KostalRegister as built at lines 1085 to 1214: the
descriptors of the append sequence, each paired with its current cell value. -/
def KostalRegisterOf (cells : Nat → Value) : List (Descriptor × Value) :=
  appendDescs.map (fun d => (d, cells d.address))

/-- Mutable instance state that run operates on: the value cells of the AdrN
lists, and the list of AdrN descriptors currently assigned to
self.KostalRegister.  A published snapshot holds references to the AdrN
lists, not copies, so the values seen through it are always the current cell
contents. -/
structure KState where
  cells : Nat → Value
  KostalRegister : List Descriptor

/-- State right after the constructor: every value slot is 0 and
self.KostalRegister is the empty list (source line 125). -/
def stInit : KState := ⟨initCells, []⟩

/-- Values visible through the snapshot currently assigned to
self.KostalRegister: each referenced descriptor paired with the value its
cell holds now. -/
def exposedSnapshot (st : KState) : List (Descriptor × Value) :=
  st.KostalRegister.map (fun d => (d, st.cells d.address))

/-- Caller visible outcome of one invocation of the run method: a normal
return or a raised exception, each carrying the instance state as the call
leaves it. -/
inductive RunOutcome
  | returns (st : KState)
  | raises (e : TransportError) (st : KState)

/-- Whether the outcome is an exception raised out of run. -/
def RunOutcome.didRaise : RunOutcome → Bool
  | .raises _ _ => true
  | .returns _ => false

/-- Instance state as run leaves it, for either outcome. -/
def RunOutcome.state : RunOutcome → KState
  | .returns st => st
  | .raises _ st => st

/-- Embedding of one call of the run method (source lines 939 to 1219).  The
try and except at lines 938 and 1223 sit at class body level around the def
statement itself, so they execute once at class creation and no handler is
active while run executes: a failing read raises out of run to the caller.
In that case self.KostalRegister keeps its previous list, but the cells
written before the failure keep their new values.  On success the reads run
to completion, self.KostalRegister is rebuilt from the append sequence and
the register 575 cell is clamped. -/
def run (t : Transport) (st : KState) : RunOutcome :=
  match passReads t st.cells with
  | (cells, none) => .returns ⟨clampCells cells, appendDescs⟩
  | (cells, some e) => .raises e ⟨cells, st.KostalRegister⟩

/-- Transport on which every read fails. -/
def t0 : Transport := fun _ _ => none

/-- Transport on which every read succeeds and returns zero words. -/
def t1 : Transport := fun _ cnt => some (List.replicate cnt 0)

/-- Transport on which only the first read of the pass (address 6) succeeds,
returning words of value 1, and every other read fails. -/
def tB : Transport := fun a _ => if a = 6 then some (List.replicate 8 1) else none

/-- Instance state after a first, successful pass over the zero transport. -/
def st1 : KState := (run t1 stInit).state

/-- Instance state after a second pass over tB, which reads address 6 and
then fails at address 46. -/
def st2 : KState := (run tB st1).state

/-- Modelled from the spec: the table of section 3 associating each catalog
encoding tag with its decoder (the source dispatches by hand and has no such
table).  Both U32 routines are the UInt32 decoder; Float and R32 tags are the
Float32 decoder. -/
def kindMatches (tag : String) (k : ReadKind) : Bool :=
  match tag, k with
  | "Strg8", .kStr8 => true
  | "Strg32", .kStr32 => true
  | "Float", .kFloat => true
  | "R32", .kFloat => true
  | "U16", .kU16_1 => true
  | "U32", .kU32 => true
  | "U32", .kU32new => true
  | "S16", .kS16 => true
  | "U8", .kU8 => true
  | _, _ => false

/-- Catalog type tag of an address, empty when the address is not listed. -/
def tagOf (a : Nat) : String :=
  ((catalog.find? (fun d => d.address == a)).map Descriptor.typ).getD ""

/-- Exchange of the two U32 routines, for the equivalence claim. -/
def swapU32 : ReadKind → ReadKind
  | .kU32 => .kU32new
  | .kU32new => .kU32
  | k => k

/-- Read sequence with every U32 read dispatched to the other U32 routine. -/
def readSeqSwapped : List (Nat × ReadKind) :=
  readSeq.map (fun p => (p.1, swapU32 p.2))

/-- Pass over the swapped read sequence. -/
def passReadsSwapped (t : Transport) (cells : Nat → Value) :
    (Nat → Value) × Option TransportError :=
  passReadsAux t cells readSeqSwapped

/-- Run with every U32 read dispatched to the other U32 routine. -/
def runSwapped (t : Transport) (st : KState) : RunOutcome :=
  match passReadsSwapped t st.cells with
  | (cells, none) => .returns ⟨clampCells cells, appendDescs⟩
  | (cells, some e) => .raises e ⟨cells, st.KostalRegister⟩

/-- Modelled from the spec: the UInt32 encoder inverse to the decode order,
low word first, big endian bytes inside each word (the source has no encoder;
section 8 of the spec states the round trip). -/
def encodeU32 (v : Nat) : List Nat := [v % 65536, v / 65536 % 65536]

/-- Modelled from the spec: the UInt16 encoder, a single word. -/
def encodeU16 (v : Nat) : List Nat := [v % 65536]

/-- Modelled from the spec: the Int16 encoder, the two complement word of the
signed value. -/
def encodeS16 (i : Int) : List Nat := [(i % 65536).toNat]

/-- Derived metric block of the main section (source lines 1252 to 1257),
reading the name keyed mapping KostalVal: panel power sum, battery flow,
total home consumption and grid flow, each rounded to 1 decimal place. -/
def doCalculations (kv : String → ℚ) : ℚ × ℚ × ℚ × ℚ :=
  let LeftSidePowerGeneration := round1 (kv ("Power DC1") + kv ("Power DC2"))
  let BatteryCharge :=
    round1 (kv ("Battery voltage") *
      kv ("Actual battery charge -minus or discharge -plus current"))
  let TotalHomeconsumption :=
    round1 (kv ("Home own consumption from battery") +
      kv ("Home own consumption from grid") + kv ("Home own consumption from PV"))
  let PowertoGrid :=
    round1 (kv ("Inverter Generation Power (actual)") - TotalHomeconsumption)
  (LeftSidePowerGeneration, BatteryCharge, TotalHomeconsumption, PowertoGrid)

/-- Name keyed mapping holding the eight inputs the derived metrics read, all
other names mapping to 0. -/
def kvOf (p1 p2 v i b g pv gen : ℚ) : String → ℚ := fun n =>
  if n = "Power DC1" then p1
  else if n = "Power DC2" then p2
  else if n = "Battery voltage" then v
  else if n = "Actual battery charge -minus or discharge -plus current" then i
  else if n = "Home own consumption from battery" then b
  else if n = "Home own consumption from grid" then g
  else if n = "Home own consumption from PV" then pv
  else if n = "Inverter Generation Power (actual)" then gen
  else 0

/-- Transport operations of the write path, for trace level statements. -/
inductive TxOp
  | read (addr cnt : Nat)
  | write (addr : Nat) (value : Int)
  deriving DecidableEq

/-- Whether a transport operation is a read. -/
def TxOp.isRead : TxOp → Bool
  | .read _ _ => true
  | .write _ _ => false

/-- Transport trace of WriteS16 (source lines 931 to 935): a single
write_registers call passing the raw value; the commented decode lines are
dead and no read is issued. -/
def WriteS16 (myadr_dec : Nat) (value : Int) : List TxOp :=
  [TxOp.write myadr_dec value]


/-- Byte pair of a word reassembles to the word reduced modulo 65536. -/
lemma bytesToNatBE_wordBytes (w : Nat) : bytesToNatBE (wordBytes w) = w % 65536 := by
  simp only [bytesToNatBE, wordBytes, List.foldl]
  omega

/-- One word decode of ReadU16_1 in closed arithmetic form. -/
lemma ReadU16_1_word (w : Nat) : ReadU16_1 [w] = w % 65536 := by
  simp only [ReadU16_1, decode_16bit_uint, fromRegistersBE, wordBytes, List.map,
    List.flatten, List.append_nil, List.take, bytesToNatBE, List.foldl]
  omega

/-- One word decode of ReadU8 in closed arithmetic form. -/
lemma ReadU8_word (w : Nat) : ReadU8 [w] = w % 65536 := by
  simp only [ReadU8, decode_16bit_uint, fromRegistersBE, wordBytes, List.map,
    List.flatten, List.append_nil, List.take, bytesToNatBE, List.foldl]
  omega

/-- One word decode of ReadS16 in closed arithmetic form. -/
lemma ReadS16_word (w : Nat) : ReadS16 [w] = toSigned16 (w % 65536) := by
  simp only [ReadS16, decode_16bit_int, decode_16bit_uint, fromRegistersBE, wordBytes,
    List.map, List.flatten, List.append_nil, List.take, bytesToNatBE, List.foldl]
  congr 1
  omega

/-- Two word decode of ReadU32 in closed arithmetic form: low word first. -/
lemma ReadU32_words (w0 w1 : Nat) :
    ReadU32 [w0, w1] = w1 % 65536 * 65536 + w0 % 65536 := by
  simp only [ReadU32, decode_32bit_uint, fromRegistersBE, wordBytes, List.map,
    List.flatten, List.append_nil, List.cons_append, List.nil_append, List.take,
    wordswap32, List.drop, bytesToNatBE, List.foldl]
  omega

/-- Every snapshot entry pairs a descriptor of the append sequence with the
cell value at its address. -/
lemma mem_KostalRegisterOf {cells : Nat → Value} {e : Descriptor × Value}
    (h : e ∈ KostalRegisterOf cells) :
    e.1 ∈ appendDescs ∧ e.2 = cells e.1.address := by
  rcases List.mem_map.mp h with ⟨d, hd, rfl⟩
  exact ⟨hd, rfl⟩

/-- Every appended descriptor is a catalog descriptor. -/
lemma appendDescs_subset : ∀ d ∈ appendDescs, d ∈ catalog := by decide

/-- Every entry visible through a published snapshot pairs a referenced
descriptor with the current value of the cell at its address. -/
lemma mem_exposedSnapshot {st : KState} {e : Descriptor × Value}
    (h : e ∈ exposedSnapshot st) :
    e.1 ∈ st.KostalRegister ∧ e.2 = st.cells e.1.address := by
  rcases List.mem_map.mp h with ⟨d, hd, rfl⟩
  exact ⟨hd, rfl⟩

/-- If some read of the list fails on the transport, the read block stops at
a failing read and reports its error. -/
lemma passReadsAux_fails (t : Transport) :
    ∀ (l : List (Nat × ReadKind)) (cells : Nat → Value),
      (∃ p ∈ l, t p.1 (spanOf p.2) = none) →
      ∃ err cells2, passReadsAux t cells l = (cells2, some err) := by
  intro l
  induction l with
  | nil =>
    intro cells h
    rcases h with ⟨p, hp, -⟩
    cases hp
  | cons hd tl ih =>
    intro cells h
    obtain ⟨a, k⟩ := hd
    by_cases hh : t a (spanOf k) = none
    · exact ⟨⟨a⟩, cells, by simp [passReadsAux, hh]⟩
    · rcases Option.ne_none_iff_exists.mp hh with ⟨ws, hws⟩
      rcases h with ⟨p, hp, hfail⟩
      rcases List.mem_cons.mp hp with rfl | hmem
      · exact absurd hfail hh
      · rcases ih (updateCell cells a (decodeKind k ws)) ⟨p, hmem, hfail⟩ with
          ⟨err, cells2, herr⟩
        exact ⟨err, cells2, by simp only [passReadsAux, ← hws]; exact herr⟩

/-- Swapping the two U32 routines keeps the register span of every read. -/
lemma spanOf_swapU32 (k : ReadKind) : spanOf (swapU32 k) = spanOf k := by
  cases k <;> rfl

/-- Swapping the two U32 routines keeps the decoded value of every read. -/
lemma decodeKind_swapU32 (k : ReadKind) (ws : List Nat) :
    decodeKind (swapU32 k) ws = decodeKind k ws := by
  cases k <;> rfl

/-- A pass over a swapped read list equals the pass over the original list. -/
lemma passReadsAux_swap (t : Transport) :
    ∀ (l : List (Nat × ReadKind)) (cells : Nat → Value),
      passReadsAux t cells (l.map (fun p => (p.1, swapU32 p.2))) =
        passReadsAux t cells l := by
  intro l
  induction l with
  | nil => intro cells; rfl
  | cons hd tl ih =>
    intro cells
    obtain ⟨a, k⟩ := hd
    simp only [List.map_cons, passReadsAux, spanOf_swapU32]
    cases t a (spanOf k) with
    | none => rfl
    | some ws =>
      dsimp only
      rw [decodeKind_swapU32]
      exact ih _

/-- Filtering the zero bytes away from content followed by zero padding yields
the content when the content itself has no zero byte. -/
lemma filter_append_replicate (content : List Nat) (k : Nat)
    (h : content.all (fun b => b != 0) = true) :
    (content ++ List.replicate k 0).filter (fun b => b != 0) = content := by
  rw [List.filter_append]
  have h1 : content.filter (fun b => b != 0) = content := by
    rw [List.filter_eq_self]
    intro a ha
    exact List.all_eq_true.mp h a ha
  have h2 : (List.replicate k (0 : Nat)).filter (fun b => b != 0) = [] := by
    induction k with
    | zero => rfl
    | succ n ihn => simp [List.replicate_succ, List.filter_cons, ihn]
  rw [h1, h2, List.append_nil]

/-- C1 counterexample: the claim that every catalog descriptor is read exactly
once and stored exactly once fails on the source: address 578 is in the
catalog but never read (its read is commented out at line 1035), address 162
is read twice (lines 967 and 968), and address 1038 is appended to the
snapshot twice (lines 1188 and 1214). -/
theorem C1_catalog_pass_counterexample :
    578 ∈ catalog.map Descriptor.address ∧ readSeqAddrs.count 578 = 0 ∧
      readSeqAddrs.count 162 = 2 ∧ appendAddrs.count 1038 = 2 := by
  decide

/-- C1 amended: every catalog descriptor is read exactly once and stored
exactly once per pass, except that address 578 is never read nor stored,
address 162 is read twice (stored once), and address 1038 is read twice and
stored twice; every snapshot entry carries a catalog descriptor together with
the cell value of exactly that descriptors address, so values are keyed
consistently by address and name. -/
theorem C1_catalog_pass_amended :
    (catalog.all (fun d => readSeqAddrs.count d.address ==
        (if d.address = 578 then 0
         else if d.address = 162 ∨ d.address = 1038 then 2 else 1)) = true) ∧
    (catalog.all (fun d => appendAddrs.count d.address ==
        (if d.address = 578 then 0
         else if d.address = 1038 then 2 else 1)) = true) ∧
    (∀ cells : Nat → Value, ∀ e ∈ KostalRegisterOf cells,
        e.1 ∈ catalog ∧ e.2 = cells e.1.address) :=
  ⟨by decide, by decide, fun cells e he =>
    ⟨appendDescs_subset e.1 (mem_KostalRegisterOf he).1, (mem_KostalRegisterOf he).2⟩⟩

/-- C1 witness: the amended snapshot keying statement evaluated at the initial
cells and the first snapshot entry. -/
theorem C1_catalog_pass_witness :
    Adr6 ∈ catalog ∧ Value.int 0 = initCells Adr6.address :=
  C1_catalog_pass_amended.2.2 initCells (Adr6, Value.int 0) (by decide)

/-- C3 counterexample: the claim that every read dispatches to the decoder of
the catalog encoding fails on the source: address 531 carries the catalog tag
Float but line 1032 reads it with the U16 routine. -/
theorem C3_dispatch_counterexample :
    (531, ReadKind.kU16_1) ∈ readSeq ∧ tagOf 531 = "Float" ∧
      kindMatches (tagOf 531) ReadKind.kU16_1 = false ∧
      readSeq.all (fun p => kindMatches (tagOf p.1) p.2) = false := by
  decide

/-- C3 amended: every read of the pass uses the decoder matching its catalog
encoding tag, except address 531 (tag Float, read with the U16 routine at
line 1032) and addresses 1038, 1040, 1042 and 1044 (tag U32, read with the
Float routine at lines 1054 to 1057); each decoded value is stored in the
snapshot with its own descriptor, hence under its address and its name. -/
theorem C3_dispatch_amended :
    (readSeq.all (fun p =>
        if p.1 = 531 ∨ p.1 = 1038 ∨ p.1 = 1040 ∨ p.1 = 1042 ∨ p.1 = 1044 then
          !kindMatches (tagOf p.1) p.2
        else kindMatches (tagOf p.1) p.2) = true) ∧
    tagOf 531 = "Float" ∧ (531, ReadKind.kU16_1) ∈ readSeq ∧
    (tagOf 1038 = "U32" ∧ tagOf 1040 = "U32" ∧ tagOf 1042 = "U32" ∧
      tagOf 1044 = "U32") ∧
    (readSeq.all (fun p =>
        if p.1 = 1038 ∨ p.1 = 1040 ∨ p.1 = 1042 ∨ p.1 = 1044 then
          decide (p.2 = ReadKind.kFloat)
        else true) = true) ∧
    (∀ cells : Nat → Value, ∀ e ∈ KostalRegisterOf cells,
        e.2 = cells e.1.address) :=
  ⟨by decide, by decide, by decide, by decide, by decide,
    fun cells e he => (mem_KostalRegisterOf he).2⟩

/-- C3 witness: the amended storage statement evaluated at the initial cells
and the snapshot entry of address 46. -/
theorem C3_dispatch_witness : Value.int 0 = initCells Adr46.address :=
  C3_dispatch_amended.2.2.2.2.2 initCells (Adr46, Value.int 0) (by decide)

/-- C9 counterexample: the claim that the write path first performs a
diagnostic read and then writes a 2 word Float32 payload fails on the source:
WriteS16 issues exactly one transport operation, a write of the raw value,
with no read at all. -/
theorem C9_write_path_counterexample :
    WriteS16 1034 100 = [TxOp.write 1034 100] ∧ (WriteS16 1034 100).length = 1 ∧
      (WriteS16 1034 100).any TxOp.isRead = false := by
  decide

/-- C9 amended: for every call, WriteS16 issues exactly one transport
operation, a register write of the raw value at the given address; there is
no diagnostic pre read, no Float32 encoding of the value, and no read after
write verification. -/
theorem C9_write_path_amended :
    ∀ (a : Nat) (v : Int), WriteS16 a v = [TxOp.write a v] ∧
      (WriteS16 a v).any TxOp.isRead = false ∧ (WriteS16 a v).length = 1 :=
  fun _ _ => ⟨rfl, rfl, rfl⟩

/-- C10 confirmed: ReadU32 and ReadU32new are extensionally equal, and the
whole acquisition pass with every U32 read dispatched to the other routine
produces the same outcome on every transport and instance state. -/
theorem C10_u32_equivalence :
    (∀ ws, ReadU32 ws = ReadU32new ws) ∧
      (∀ (t : Transport) (st : KState), runSwapped t st = run t st) := by
  refine ⟨fun ws => rfl, fun t st => ?_⟩
  have h := passReadsAux_swap t readSeq st.cells
  simp only [runSwapped, passReadsSwapped, readSeqSwapped, run, passReads, h]

/-- C4 counterexample: the claim that after a failed pass the exposed
snapshot remains the previous one fails on the source because snapshot
entries alias the mutable AdrN lists.  After a successful pass over the zero
transport, a second pass over tB reads address 6 (now returning words of
value 1) and then fails at address 46: run raises and self.KostalRegister
keeps the previous list, yet the snapshot visible through it now shows the
new value at address 6, a partially updated mapping. -/
theorem C4_failure_handling_counterexample :
    (run tB st1).didRaise = true ∧
      st2.KostalRegister = st1.KostalRegister ∧
      (Adr6, Value.bytes [1, 1, 1, 1]) ∈ exposedSnapshot st2 ∧
      (Adr6, Value.bytes []) ∈ exposedSnapshot st1 ∧
      exposedSnapshot st2 ≠ exposedSnapshot st1 := by
  decide

/-- C4 amended: if any single register read fails during an acquisition pass,
the pass aborts and the failure reaches the caller as a raised exception (the
try and except around the def statement are dead at runtime), and
self.KostalRegister keeps its previous list, so no new snapshot list is
published; on a successful pass the full append sequence is published.  The
values seen through a previously published snapshot are not guaranteed to
stay the previous ones, because its entries alias the AdrN cells that an
aborted pass partially overwrites (see the counterexample). -/
theorem C4_failure_handling_amended :
    (∀ (t : Transport) (st : KState) (a : Nat) (k : ReadKind),
        (a, k) ∈ readSeq → t a (spanOf k) = none →
        (run t st).didRaise = true ∧
          (run t st).state.KostalRegister = st.KostalRegister) ∧
    (∀ (t : Transport) (st st2 : KState),
        run t st = RunOutcome.returns st2 → st2.KostalRegister = appendDescs) := by
  constructor
  · intro t st a k hmem hfail
    obtain ⟨err, cells2, herr⟩ :=
      passReadsAux_fails t readSeq st.cells ⟨(a, k), hmem, hfail⟩
    have herr2 : passReads t st.cells = (cells2, some err) := herr
    constructor
    · simp [run, herr2, RunOutcome.didRaise]
    · simp [run, herr2, RunOutcome.state]
  · intro t st st2 hret
    rcases hp : passReads t st.cells with ⟨cells, opt⟩
    cases opt with
    | none =>
      simp only [run, hp] at hret
      cases hret
      rfl
    | some err =>
      simp [run, hp] at hret

/-- C4 witness: the amended statement evaluated on the transport that fails
every read, in the constructor state, at the first read of the pass. -/
theorem C4_failure_handling_witness :
    (run t0 stInit).didRaise = true ∧
      (run t0 stInit).state.KostalRegister = stInit.KostalRegister :=
  C4_failure_handling_amended.1 t0 stInit 6 ReadKind.kStr8 (by decide) rfl

/-- C2 confirmed: the register 575 value decoded by ReadS16 is clamped by the
rule of lines 1218 and 1219 exactly at the 32767 boundary: a decode of 32767
or more is replaced by 0, a decode of 32766 or less, negatives included, is
kept, and the clamped cell never exceeds 32766; consequently in every
snapshot returned by a successful run, an integer value stored at address
575 is at most 32766. -/
theorem C2_register575_clamp :
    (∀ w, w < 65536 →
        (32767 ≤ ReadS16 [w] → clamp575 (ReadS16 [w]) = 0) ∧
        (ReadS16 [w] ≤ 32766 → clamp575 (ReadS16 [w]) = ReadS16 [w]) ∧
        clamp575 (ReadS16 [w]) ≤ 32766) ∧
    (∀ (t : Transport) (st st2 : KState),
        run t st = RunOutcome.returns st2 →
        ∀ e ∈ exposedSnapshot st2, e.1.address = 575 →
        ∀ v : Int, e.2 = Value.int v → v ≤ 32766) := by
  constructor
  · intro w hw
    rw [ReadS16_word w, Nat.mod_eq_of_lt hw]
    refine ⟨?_, ?_, ?_⟩
    · intro hge
      simp only [toSigned16, clamp575] at *
      split_ifs at * <;> omega
    · intro hle
      simp only [toSigned16, clamp575] at *
      split_ifs at * <;> omega
    · simp only [toSigned16, clamp575]
      split_ifs <;> omega
  · intro t st st2 hrun e he haddr v hv
    rcases hp : passReads t st.cells with ⟨cells, opt⟩
    cases opt with
    | none =>
      simp only [run, hp] at hrun
      cases hrun
      have hval := (mem_exposedSnapshot he).2
      rw [haddr] at hval
      rw [hval] at hv
      cases hc : cells 575 with
      | int v0 =>
        simp [clampCells, hc] at hv
        rw [← hv]
        simp only [clamp575]
        split_ifs <;> omega
      | bytes bs => simp [clampCells, hc] at hv
      | nat n => simp [clampCells, hc] at hv
      | float q => simp [clampCells, hc] at hv
    | some err =>
      simp [run, hp] at hrun

/-- C2 witness: the clamp boundary at the raw words 32767 and 32766, and the
run level bound applied to the 575 entry of a successful pass over the
transport returning zero words. -/
theorem C2_register575_clamp_witness :
    clamp575 (ReadS16 [32767]) = 0 ∧
      clamp575 (ReadS16 [32766]) = ReadS16 [32766] ∧ (0 : Int) ≤ 32766 :=
  ⟨(C2_register575_clamp.1 32767 (by decide)).1 (by decide),
    (C2_register575_clamp.1 32766 (by decide)).2.1 (by decide),
    C2_register575_clamp.2 t1 stInit _ rfl (Adr575, Value.int 0) (by decide) rfl 0
      rfl⟩

/-- C5 confirmed: two word values combine low word first with big endian
bytes inside each word, so the U32 decode of the word pair w0, w1 is
w1 * 65536 + w0; with the encoders written after the spec (the source has no
encoder), U32, U16 and S16 values round trip unchanged over their whole
representable ranges. -/
theorem C5_word_order :
    (∀ w0 w1, w0 < 65536 → w1 < 65536 → ReadU32 [w0, w1] = w1 * 65536 + w0) ∧
    (∀ v, v < 4294967296 → ReadU32 (encodeU32 v) = v) ∧
    (∀ v, v < 65536 → ReadU16_1 (encodeU16 v) = v) ∧
    (∀ i : Int, -32768 ≤ i → i ≤ 32767 → ReadS16 (encodeS16 i) = i) := by
  refine ⟨?_, ?_, ?_, ?_⟩
  · intro w0 w1 h0 h1
    rw [ReadU32_words, Nat.mod_eq_of_lt h0, Nat.mod_eq_of_lt h1]
  · intro v hv
    simp only [encodeU32]
    rw [ReadU32_words]
    omega
  · intro v hv
    simp only [encodeU16]
    rw [ReadU16_1_word]
    omega
  · intro i h1 h2
    simp only [encodeS16]
    rw [ReadS16_word]
    simp only [toSigned16]
    split_ifs <;> omega

/-- C5 witness: the word order identity and the three round trips at concrete
values. -/
theorem C5_word_order_witness :
    ReadU32 [1, 2] = 2 * 65536 + 1 ∧ ReadU32 (encodeU32 305419896) = 305419896 ∧
      ReadU16_1 (encodeU16 4660) = 4660 ∧ ReadS16 (encodeS16 (-5)) = -5 :=
  ⟨C5_word_order.1 1 2 (by decide) (by decide),
    C5_word_order.2.1 305419896 (by decide),
    C5_word_order.2.2.1 4660 (by decide),
    C5_word_order.2.2.2 (-5) (by decide) (by decide)⟩

/-- C6 counterexample: the claim that string decoding stops at the first NUL
gap fails on the source: for 8 words whose first bytes are the letter A, a
NUL, then the letter B, the filter keeps the byte after the NUL gap and
decodes to the two letters A B, while stopping at the first NUL gap would
keep only the letter A. -/
theorem C6_string_decode_counterexample :
    ReadStr8 [16640, 16896, 0, 0, 0, 0, 0, 0] = [65, 66] ∧
      ((fromRegistersBE [16640, 16896, 0, 0, 0, 0, 0, 0]).take 8).takeWhile
        (fun b => b != 0) = [65] ∧
      ([65, 66] : List Nat) ≠ [65] := by
  decide

/-- C6 amended: the string decoders drop every NUL byte, embedded ones
included, concatenating the remaining bytes, and the result never contains a
NUL byte; when the consumed byte span is nonzero content followed only by NUL
padding, the decode yields exactly the content, so 8 words holding the
letters A B C followed by NUL padding decode to exactly those letters. -/
theorem C6_string_decode_amended :
    (∀ ws, (ReadStr8 ws).all (fun b => b != 0) = true ∧
        (ReadStr32 ws).all (fun b => b != 0) = true) ∧
    (∀ ws content k, (fromRegistersBE ws).take 8 = content ++ List.replicate k 0 →
        content.all (fun b => b != 0) = true → ReadStr8 ws = content) ∧
    (∀ ws content k, (fromRegistersBE ws).take 32 = content ++ List.replicate k 0 →
        content.all (fun b => b != 0) = true → ReadStr32 ws = content) := by
  refine ⟨?_, ?_, ?_⟩
  · intro ws
    constructor <;>
      · rw [List.all_eq_true]
        intro b hb
        exact (List.mem_filter.mp hb).2
  · intro ws content k hsplit hcontent
    rw [ReadStr8, hsplit, filter_append_replicate content k hcontent]
  · intro ws content k hsplit hcontent
    rw [ReadStr32, hsplit, filter_append_replicate content k hcontent]

/-- C6 witness: the amended content and padding statement at the concrete 8
word input whose bytes are the letters A B C followed by five NUL bytes. -/
theorem C6_string_decode_witness :
    ReadStr8 [16706, 17152, 0, 0, 0, 0, 0, 0] = [65, 66, 67] :=
  C6_string_decode_amended.2.1 [16706, 17152, 0, 0, 0, 0, 0, 0] [65, 66, 67] 5
    (by decide) (by decide)

/-- C7 confirmed: the derived metric block computes exactly the four claimed
quantities from the name keyed snapshot values, each rounded to 1 decimal
place, as pure functions of the mapping; at the concrete fixtures, panel
powers 120.5 and 80.3 give a combined 200.8, and battery voltage 48.0 with
current -5.0 gives a battery flow of -240.0. -/
theorem C7_derived_metrics :
    (∀ p1 p2 v i b g pv gen : ℚ,
        doCalculations (kvOf p1 p2 v i b g pv gen) =
          (round1 (p1 + p2), round1 (v * i), round1 (b + g + pv),
            round1 (gen - round1 (b + g + pv)))) ∧
    (doCalculations (kvOf (241 / 2) (803 / 10) 0 0 0 0 0 0)).1 = 1004 / 5 ∧
    (doCalculations (kvOf 0 0 48 (-5) 0 0 0 0)).2.1 = -240 :=
  ⟨fun p1 p2 v i b g pv gen => rfl,
    by
      simp only [doCalculations, kvOf, String.reduceEq, reduceIte]
      norm_num [round1, roundHalfEven],
    by
      simp only [doCalculations, kvOf, String.reduceEq, reduceIte]
      norm_num [round1, roundHalfEven]⟩

/-- C8 confirmed: every value the Float32 decoder returns is a multiple of
one hundredth and is the 2 decimal rounding of the raw IEEE decode, while
the numeric decoders return the exact decoded integer with no rounding: the
U16 and U8 routines return the word itself, the S16 routine its two
complement value, and the U32 routine the exact low word first combination. -/
theorem C8_decode_rounding :
    (∀ ws q, ReadFloat ws = some q →
        (q * 100 : ℚ).den = 1 ∧
        ∀ q0, decode_32bit_float (fromRegistersBE ws) = some q0 → q = round2 q0) ∧
    (∀ w, w < 65536 → ReadU16_1 [w] = w ∧ ReadU8 [w] = w ∧
        ReadS16 [w] = if w < 32768 then (w : Int) else (w : Int) - 65536) ∧
    (∀ w0 w1, w0 < 65536 → w1 < 65536 → ReadU32 [w0, w1] = w1 * 65536 + w0) := by
  refine ⟨?_, ?_, ?_⟩
  · intro ws q h
    rw [ReadFloat, Option.map_eq_some'] at h
    rcases h with ⟨q0, hq0, rfl⟩
    constructor
    · have h100 : (round2 q0 * 100 : ℚ) = ((roundHalfEven (q0 * 100) : ℤ) : ℚ) := by
        rw [round2]
        field_simp
      rw [h100]
      exact Rat.den_intCast _
    · intro q1 hq1
      rw [hq0] at hq1
      injection hq1 with h2
      rw [h2]
  · intro w hw
    refine ⟨?_, ?_, ?_⟩
    · rw [ReadU16_1_word, Nat.mod_eq_of_lt hw]
    · rw [ReadU8_word, Nat.mod_eq_of_lt hw]
    · rw [ReadS16_word, Nat.mod_eq_of_lt hw, toSigned16]
  · intro w0 w1 h0 h1
    rw [ReadU32_words, Nat.mod_eq_of_lt h0, Nat.mod_eq_of_lt h1]

/-- C8 witness: the 2 decimal image fact at the decode of the pattern of the
value one, and the exactness of the numeric decoders at concrete words. -/
theorem C8_decode_rounding_witness :
    ((0 : ℚ) * 100).den = 1 ∧ ReadU16_1 [7] = 7 ∧
      ReadU32 [3, 4] = 4 * 65536 + 3 :=
  ⟨(C8_decode_rounding.1 [0, 0] 0
      (by
        simp only [ReadFloat, decode_32bit_float, fromRegistersBE, wordBytes,
          bytesToNatBE, wordswap32, ieee754single, List.map, List.flatten, List.take,
          List.drop, List.append_nil, List.foldl, List.cons_append, List.nil_append]
        norm_num [round2, roundHalfEven])).1,
    (C8_decode_rounding.2.1 7 (by decide)).1,
    C8_decode_rounding.2.2 3 4 (by decide) (by decide)⟩

end Kostal
